import Mathlib

/-
Verification of the CourseFindr recommendation engine
(app/services/recommendation_engine.py, app/schemas/recommendation.py,
app/models/course.py), shallowly embedded in Lean 4.

Python floats are modelled by exact rationals; the TF-IDF cosine
similarity value is modelled over the reals (square roots), while the
rest of the scoring pipeline is parametric in the per-course content
score, mirroring how the engine consumes the similarity index.
-/

namespace CourseFindr

/-- Python truthiness of an optional string: `None` and the empty string
are falsy, every other string is truthy. -/
def strTruthy : Option String → Bool
  | none => false
  | some s => s != ""

/-- Python truthiness of an optional float: `None` and `0.0` are falsy. -/
def ratTruthy : Option ℚ → Bool
  | none => false
  | some q => q != 0

/-- Python truthiness of an optional int: `None` and `0` are falsy. -/
def natTruthy : Option Nat → Bool
  | none => false
  | some n => n != 0

/-- Substring test on character lists: does `hay` contain `needle` as a
contiguous run?  Models the Python test `needle in hay` (the empty needle is
contained in everything). -/
def containsSub : List Char → List Char → Bool
  | hay, needle =>
    match hay with
    | [] => needle.isEmpty
    | c :: t => needle.isPrefixOf (c :: t) || containsSub t needle

/-- The Python test `needle in hay` on strings. -/
def pyIn (needle hay : String) : Bool := containsSub hay.data needle.data

/-- The Python method `str.lower()` (ASCII case folding, which covers every
string the engine handles). -/
def pyLower (s : String) : String := ⟨s.data.map Char.toLower⟩

/-- The Python method `str.title()`: the first alphabetic character of every
alphabetic run is upper-cased, the rest lower-cased.  `prevAlpha` records
whether the previous character was alphabetic. -/
def pyTitleAux : Bool → List Char → List Char
  | _, [] => []
  | prevAlpha, c :: t =>
    (if c.isAlpha then (if prevAlpha then c.toLower else c.toUpper) else c)
      :: pyTitleAux c.isAlpha t

/-- The Python method `str.title()` on strings. -/
def pyTitle (s : String) : String := ⟨pyTitleAux false s.data⟩

/-- Career outcome rows (model `CareerOutcome`): `title` is non-nullable,
`description` is nullable. -/
structure CareerOutcome where
  title : String
  description : Option String
deriving DecidableEq

/-- Course rows (model `Course`) restricted to the columns the
recommendation engine reads.  Nullability follows the SQLAlchemy model:
`name`, `language_of_instruction` and `modality` are non-nullable (the
latter two have defaults "English" and "in-person"), the rest are
nullable.  `skills` keeps only the skill names, which is all the engine
uses. -/
structure Course where
  name : String
  description : Option String
  location_city : Option String
  location_country : Option String
  language_of_instruction : String
  modality : String
  duration_months : Option Nat
  tuition_fee : Option ℚ
  entry_requirements : Option String
  course_level : Option String
  skills : List String
  career_outcomes : List CareerOutcome
deriving DecidableEq

/-- The `RecommendationRequest` pydantic schema.  Optional fields are
`Option`-valued; note that `language_of_instruction` has schema default
`"English"` (not `None`), and the four weights have defaults
0.4 / 0.3 / 0.15 / 0.15. -/
structure RecommendationRequest where
  skills : List String
  interests : List String
  location : Option String
  modality : Option String
  language_of_instruction : Option String
  career_goals : Option String
  max_tuition : Option ℚ
  course_level : Option String
  max_duration_months : Option Nat
  skill_weight : ℚ
  interest_weight : ℚ
  location_weight : ℚ
  career_weight : ℚ
deriving DecidableEq

/-- The request obtained from the pydantic schema when every optional
field is left absent: each field takes its declared default. -/
def defaultRequest : RecommendationRequest where
  skills := []
  interests := []
  location := none
  modality := none
  language_of_instruction := some ("English")
  career_goals := none
  max_tuition := none
  course_level := none
  max_duration_months := none
  skill_weight := 2/5
  interest_weight := 3/10
  location_weight := 3/20
  career_weight := 3/20

/-- Validation constraints the pydantic schema imposes on a request:
`max_tuition ≥ 0`, `max_duration_months > 0`, and each weight in
[0,1]. -/
def RecommendationRequest.valid (r : RecommendationRequest) : Prop :=
  (∀ t ∈ r.max_tuition, 0 ≤ t) ∧ (∀ d ∈ r.max_duration_months, 0 < d) ∧
  0 ≤ r.skill_weight ∧ r.skill_weight ≤ 1 ∧
  0 ≤ r.interest_weight ∧ r.interest_weight ≤ 1 ∧
  0 ≤ r.location_weight ∧ r.location_weight ≤ 1 ∧
  0 ≤ r.career_weight ∧ r.career_weight ≤ 1

instance (r : RecommendationRequest) : Decidable r.valid := by
  unfold RecommendationRequest.valid; infer_instance

/-- Model of `_calculate_location_score`: 1.0 with no location preference; 1.0 for
an online course; 1.0 on a (case-insensitive) substring hit in the city;
0.7 on a hit in the country; 0.1 otherwise. -/
def locationScore (c : Course) (r : RecommendationRequest) : ℚ :=
  if strTruthy r.location then
    if (c.modality != "") && (pyLower c.modality == ("online")) then 1
    else if strTruthy c.location_city &&
        pyIn (pyLower (r.location.getD (""))) (pyLower (c.location_city.getD (""))) then 1
    else if strTruthy c.location_country &&
        pyIn (pyLower (r.location.getD (""))) (pyLower (c.location_country.getD (""))) then 7/10
    else 1/10
  else 1

/-- The check `career_goals_lower in career_outcome.title.lower()`
(`g` is already lower-cased). -/
def titleHit (g : String) (o : CareerOutcome) : Bool :=
  pyIn g (pyLower o.title)

/-- The check `career_outcome.description and career_goals_lower in
career_outcome.description.lower()`. -/
def descHit (g : String) (o : CareerOutcome) : Bool :=
  strTruthy o.description && pyIn g (pyLower (o.description.getD ("")))

/-- The loop over `course.career_outcomes` inside
`_calculate_career_score`: outcomes are examined in order; the first one
whose title contains the (lowered) goal returns `some 1`, otherwise the
first one whose (truthy) description contains it returns `some (4/5)`;
`none` when the loop falls through.  `g` is already lower-cased. -/
def careerLoop (g : String) : List CareerOutcome → Option ℚ
  | [] => none
  | o :: rest =>
    if titleHit g o then some 1
    else if descHit g o then some (4/5)
    else careerLoop g rest

/-- Model of `_calculate_career_score`: 1.0 with no career-goal text; otherwise the
outcome loop, then 0.6 on a hit in the course description, else 0.3. -/
def careerScore (c : Course) (r : RecommendationRequest) : ℚ :=
  if strTruthy r.career_goals then
    match careerLoop (pyLower (r.career_goals.getD (""))) c.career_outcomes with
    | some v => v
    | none =>
      if strTruthy c.description &&
          pyIn (pyLower (r.career_goals.getD (""))) (pyLower (c.description.getD (""))) then 3/5
      else 3/10
  else 1

/-- The modality rule of `_calculate_filter_score` fires: both the
request preference and the course modality are truthy and their
lower-casings differ. -/
def modalityViolated (c : Course) (r : RecommendationRequest) : Bool :=
  strTruthy r.modality && (c.modality != "") &&
    ((pyLower (r.modality.getD (""))) != pyLower c.modality)

/-- The language rule fires: the request language is truthy and the
lower-cased course language differs from it. -/
def languageViolated (c : Course) (r : RecommendationRequest) : Bool :=
  strTruthy r.language_of_instruction &&
    ((pyLower c.language_of_instruction) != pyLower (r.language_of_instruction.getD ("")))

/-- The tuition rule fires: `max_tuition` and `tuition_fee` are truthy
(in particular neither is `None` or `0.0`) and the fee exceeds the cap. -/
def tuitionViolated (c : Course) (r : RecommendationRequest) : Bool :=
  ratTruthy r.max_tuition && ratTruthy c.tuition_fee &&
    decide (r.max_tuition.getD 0 < c.tuition_fee.getD 0)

/-- The duration rule fires: both values truthy and the course duration
exceeds the cap. -/
def durationViolated (c : Course) (r : RecommendationRequest) : Bool :=
  natTruthy r.max_duration_months && natTruthy c.duration_months &&
    decide (r.max_duration_months.getD 0 < c.duration_months.getD 0)

/-- The course-level rule fires: both values truthy and the lower-cased
levels differ. -/
def levelViolated (c : Course) (r : RecommendationRequest) : Bool :=
  strTruthy r.course_level && strTruthy c.course_level &&
    ((pyLower (r.course_level.getD (""))) != pyLower (c.course_level.getD ("")))

/-- Model of `_calculate_filter_score`: rules are evaluated in a fixed order with
early return — modality 0.0, language 0.1, tuition 0.2, duration 0.3,
course level 0.5 — and 1.0 when no rule fires. -/
def filterScore (c : Course) (r : RecommendationRequest) : ℚ :=
  if modalityViolated c r then 0
  else if languageViolated c r then 1/10
  else if tuitionViolated c r then 1/5
  else if durationViolated c r then 3/10
  else if levelViolated c r then 1/2
  else 1

/-- Model of the `_find_skill_matches` inner loop: the first course skill that
contains, or is contained in, the user skill, returned `str.title()`-d.
Both arguments are already lower-cased. -/
def firstSkillMatch (us : String) : List String → Option String
  | [] => none
  | cs :: rest =>
    if pyIn us cs || pyIn cs us then some (pyTitle cs) else firstSkillMatch us rest

/-- Model of `_find_skill_matches`: overlapping skills between user and course.
Python de-duplicates through `list(set(...))`, whose order is unspecified;
the model keeps the first occurrence of each match. -/
def findSkillMatches (c : Course) (userSkills : List String) : List String :=
  ((userSkills.map pyLower).filterMap
    (fun us => firstSkillMatch us (c.skills.map pyLower))).dedup

/-- Model of `_build_user_query`: lower-cased skills, interests and career-goal
text joined by single spaces. -/
def buildUserQuery (r : RecommendationRequest) : String :=
  String.intercalate (" ")
    ((if r.skills.isEmpty then [] else r.skills.map pyLower) ++
     (if r.interests.isEmpty then [] else r.interests.map pyLower) ++
     (if strTruthy r.career_goals then [pyLower (r.career_goals.getD (""))] else []))

/-- The dictionary `_calculate_course_score` produces for one course,
extended with the catalog index `idx` of the course (the model of
`enumerate`). -/
structure ScoreData where
  idx : Nat
  course : Course
  total_score : ℚ
  content_score : ℚ
  location_score : ℚ
  career_score : ℚ
  filter_score : ℚ
  skill_matches : List String
deriving DecidableEq

/-- The weighted sum of sub-scores before the filter multiplier is
applied. -/
def preFilterTotal (content : ℚ) (c : Course) (r : RecommendationRequest) : ℚ :=
  content * (r.skill_weight + r.interest_weight) +
    locationScore c r * r.location_weight + careerScore c r * r.career_weight

/-- Model of `_calculate_course_score` with the content-similarity value for this
course supplied as `content`. -/
def calculateCourseScore (content : ℚ) (c : Course) (r : RecommendationRequest)
    (i : Nat) : ScoreData where
  idx := i
  course := c
  total_score := preFilterTotal content c r * filterScore c r
  content_score := content
  location_score := locationScore c r
  career_score := careerScore c r
  filter_score := filterScore c r
  skill_matches := findSkillMatches c r.skills

/-- Dot product of two weighted-term vectors, over the common indices. -/
def dotProd (u v : List ℚ) : ℚ :=
  ∑ i ∈ Finset.range (min u.length v.length), u.getD i 0 * v.getD i 0

/-- Cosine similarity of two term vectors, as `sklearn` computes it for
TF-IDF rows (a vector of zero norm is normalized to zero, giving
similarity 0). -/
noncomputable def cosineSim (u v : List ℚ) : ℝ :=
  if dotProd u u = 0 ∨ dotProd v v = 0 then 0
  else (dotProd u v : ℝ) / (Real.sqrt (dotProd u u) * Real.sqrt (dotProd v v))

/-- Model of `_calculate_content_similarity`: 0.0 when the user query is empty or
the TF-IDF matrix was never built; otherwise the cosine similarity of the
query vector against row `i` of the matrix, with any computation error —
modelled as the row index falling outside the matrix — caught and turned
into 0.0 by the `except` clause. -/
noncomputable def contentSimilarity (queryVec : List ℚ)
    (matrix : Option (List (List ℚ))) (userQuery : String) (i : Nat) : ℝ :=
  if userQuery = ("") ∨ matrix = none then 0
  else
    match (matrix.getD [])[i]? with
    | none => 0
    | some row => cosineSim queryVec row

/-- The `CourseMatch` pydantic schema. -/
structure CourseMatch where
  course : Course
  match_score : ℚ
  match_explanation : String
  skill_matches : List String
  skill_match_score : ℚ
  interest_match_score : ℚ
  location_match_score : ℚ
  career_match_score : ℚ
  missing_requirements : List String
  similar_alternatives : List Nat
deriving DecidableEq

/-- The range constraints pydantic validates when a `CourseMatch` is
constructed: `match_score` and the four sub-score fields each carry
`ge=0.0, le=1.0`.  Constructing a `CourseMatch` whose fields violate
these bounds raises a `ValidationError`. -/
def CourseMatch.schemaValid (m : CourseMatch) : Prop :=
  0 ≤ m.match_score ∧ m.match_score ≤ 1 ∧
  0 ≤ m.skill_match_score ∧ m.skill_match_score ≤ 1 ∧
  0 ≤ m.interest_match_score ∧ m.interest_match_score ≤ 1 ∧
  0 ≤ m.location_match_score ∧ m.location_match_score ≤ 1 ∧
  0 ≤ m.career_match_score ∧ m.career_match_score ≤ 1

instance (m : CourseMatch) : Decidable m.schemaValid := by
  unfold CourseMatch.schemaValid; infer_instance

/-- The `search_metadata` dictionary: either the `{"error": ...}` shape of the
empty-catalog branch or the statistics shape of
`_generate_search_metadata`. -/
inductive SearchMetadata where
  | error (msg : String)
  | stats (total_courses_analyzed query_skills_count query_interests_count : Nat)
      (average_match_score : ℚ)
      (location_applied modality_applied tuition_applied level_applied : Bool)
deriving DecidableEq

/-- The `RecommendationResponse` pydantic schema. -/
structure RecommendationResponse where
  recommendations : List CourseMatch
  total_matches : Nat
  search_metadata : SearchMetadata
  suggestions : List String
deriving DecidableEq

/-- Model of `_generate_match_explanation`. -/
def generateMatchExplanation (s : ScoreData) : String :=
  let parts : List String :=
    (if s.skill_matches.isEmpty then []
     else [("Matches ") ++ toString s.skill_matches.length ++ (" of your skills: ") ++
       String.intercalate (", ") (s.skill_matches.take 3)]) ++
    (if 4/5 < s.location_score then [("Good location match")] else []) ++
    (if 4/5 < s.career_score then [("Aligns with your career goals")] else []) ++
    (if 7/10 < s.content_score then [("Strong content relevance")] else [])
  let parts :=
    if parts.isEmpty then [("General compatibility based on your preferences")] else parts
  String.intercalate (". ") parts ++ (".")

/-- Model of `_create_course_match`. -/
def createCourseMatch (s : ScoreData) : CourseMatch where
  course := s.course
  match_score := s.total_score
  match_explanation := generateMatchExplanation s
  skill_matches := s.skill_matches
  skill_match_score := s.content_score
  interest_match_score := s.content_score
  location_match_score := s.location_score
  career_match_score := s.career_score
  missing_requirements :=
    if strTruthy s.course.entry_requirements then [("Please check entry requirements")] else []
  similar_alternatives := []

/-- Mean of the total scores of a list of scored candidates
(`np.mean`). -/
def meanTotalScore (scores : List ScoreData) : ℚ :=
  (scores.map ScoreData.total_score).sum / scores.length

/-- Model of `_generate_search_metadata`, taking the size of the course cache and
the list of above-threshold candidates. -/
def generateSearchMetadata (numCourses : Nat) (r : RecommendationRequest)
    (scores : List ScoreData) : SearchMetadata :=
  .stats numCourses r.skills.length r.interests.length
    (if scores.isEmpty then 0 else meanTotalScore scores)
    (strTruthy r.location) (strTruthy r.modality)
    (ratTruthy r.max_tuition) (strTruthy r.course_level)

/-- Model of `_generate_suggestions`, over the above-threshold candidates. -/
def generateSuggestions (r : RecommendationRequest) (scores : List ScoreData) :
    List String :=
  (if scores.length < 5 then
    [("Try expanding your location preferences or considering online courses")] else []) ++
  (if r.skills.isEmpty then
    [("Add specific skills to get more targeted recommendations")] else []) ++
  (if ratTruthy r.max_tuition ∧ r.max_tuition.getD 0 < 10000 then
    [("Consider increasing your budget or looking for scholarship opportunities")] else []) ++
  (if ¬ scores.isEmpty ∧ meanTotalScore scores < 3/10 then
    [("Your criteria might be too specific. Try broadening your preferences")] else [])

/-- The scoring loop `for i, course in enumerate(self.courses_cache)`,
starting from index `i`.  The per-course content-similarity value is
supplied by `content`, indexed by catalog position. -/
def scoreCourses (content : Nat → ℚ) (r : RecommendationRequest) :
    Nat → List Course → List ScoreData
  | _, [] => []
  | i, c :: cs => calculateCourseScore (content i) c r i :: scoreCourses content r (i + 1) cs

/-- Candidates retained by the minimum-score threshold
(`total_score > 0.1`), in catalog order. -/
def keptScores (content : Nat → ℚ) (r : RecommendationRequest)
    (courses : List Course) : List ScoreData :=
  (scoreCourses content r 0 courses).filter fun s => decide (1/10 < s.total_score)

/-- The comparison used by the engine sort (key is the total score,
reverse order): `a` may come before `b` when the total score of `b` is
at most that of `a`. -/
def scoreLE (a b : ScoreData) : Bool := decide (b.total_score ≤ a.total_score)

/-- The descending, stable sort of the retained candidates
(`course_scores.sort(key=..., reverse=True)`; the Python sort is stable, so
ties keep catalog order, which a stable merge sort reproduces). -/
def rankedScores (content : Nat → ℚ) (r : RecommendationRequest)
    (courses : List Course) : List ScoreData :=
  (keptScores content r courses).mergeSort scoreLE

/-- Model of `get_recommendations`: empty-catalog early return, else score every
course, keep those above threshold, sort descending, truncate to `limit`
and assemble the response. -/
def getRecommendations (content : Nat → ℚ) (courses : List Course)
    (r : RecommendationRequest) (limit : Nat) : RecommendationResponse :=
  if courses.isEmpty then
    { recommendations := []
      total_matches := 0
      search_metadata := .error ("No courses available")
      suggestions := [("Please ensure courses are loaded in the database")] }
  else
    { recommendations := ((rankedScores content r courses).take limit).map createCourseMatch
      total_matches := (keptScores content r courses).length
      search_metadata :=
        generateSearchMetadata courses.length r (keptScores content r courses)
      suggestions := generateSuggestions r (keptScores content r courses) }

/-- The default of the `limit` parameter of `get_recommendations`. -/
def defaultLimit : Nat := 20

/-- A minimal catalog row: an in-person English-taught course with every
nullable column `NULL` (the model defaults for the non-nullable
columns). -/
def baseCourse : Course where
  name := "Data Science MSc"
  description := none
  location_city := none
  location_country := none
  language_of_instruction := "English"
  modality := "in-person"
  duration_months := none
  tuition_fee := none
  entry_requirements := none
  course_level := none
  skills := []
  career_outcomes := []

/-- A valid request whose four weights are all in [0,1] but sum to 2:
full weight on location and career, nothing else set. -/
def requestC1 : RecommendationRequest :=
  { defaultRequest with
      skill_weight := 0, interest_weight := 0, location_weight := 1, career_weight := 1 }

/-- A course whose first career outcome mentions the goal text only in
its description while the title of the second outcome contains it. -/
def courseC2 : Course :=
  { baseCourse with
      career_outcomes :=
        [{ title := "Analyst", description := some ("working with data") },
         { title := "Data Scientist", description := none }] }

/-- A request asking for the career goal "data". -/
def requestC2 : RecommendationRequest :=
  { defaultRequest with career_goals := some ("data") }

/-- A course taught in German. -/
def courseC3 : Course :=
  { baseCourse with language_of_instruction := "German" }

/-- A request in which every optional field is an explicit `None`,
including the language (overriding its "English" default). -/
def allNoneRequest : RecommendationRequest :=
  { defaultRequest with language_of_instruction := none }

/-- A request preferring the "online" modality. -/
def requestC4 : RecommendationRequest :=
  { defaultRequest with modality := some ("online") }

/-- The Berlin program of the location-scoring example in the spec. -/
def berlinCourse : Course :=
  { baseCourse with
      location_city := some ("Berlin"), location_country := some ("Germany") }

/-- Query location "Berlin". -/
def reqBerlin : RecommendationRequest :=
  { defaultRequest with location := some ("Berlin") }

/-- Query location "Germany". -/
def reqGermany : RecommendationRequest :=
  { defaultRequest with location := some ("Germany") }

/-- Query location "Paris". -/
def reqParis : RecommendationRequest :=
  { defaultRequest with location := some ("Paris") }

/-- An expensive course. -/
def courseC10 : Course :=
  { baseCourse with tuition_fee := some 999999 }

/-- A request with a zero tuition budget. -/
def requestC10 : RecommendationRequest :=
  { defaultRequest with max_tuition := some 0 }

/-- A course whose single career outcome has a title containing "data". -/
def courseC2w : Course :=
  { baseCourse with career_outcomes := [{ title := "Data Scientist", description := none }] }

/-- The location score always lies in [0,1]. -/
theorem locationScore_bounds (c : Course) (r : RecommendationRequest) :
    0 ≤ locationScore c r ∧ locationScore c r ≤ 1 := by
  unfold locationScore
  split_ifs <;> norm_num

/-- Values produced by the career-outcome loop. -/
theorem careerLoop_values {g : String} :
    ∀ {os : List CareerOutcome} {v : ℚ}, careerLoop g os = some v → v = 1 ∨ v = 4/5
  | [], v, h => by simp [careerLoop] at h
  | o :: rest, v, h => by
    unfold careerLoop at h
    split_ifs at h with h1 h2
    · exact Or.inl (Option.some_injective ℚ h).symm
    · exact Or.inr (Option.some_injective ℚ h).symm
    · exact careerLoop_values h

/-- The career score always lies in [0,1]. -/
theorem careerScore_bounds (c : Course) (r : RecommendationRequest) :
    0 ≤ careerScore c r ∧ careerScore c r ≤ 1 := by
  unfold careerScore
  by_cases h1 : strTruthy r.career_goals = true
  · rw [if_pos h1]
    rcases h : careerLoop (pyLower (r.career_goals.getD (""))) c.career_outcomes with _ | v
    · dsimp only
      by_cases hd : (strTruthy c.description &&
          pyIn (pyLower (r.career_goals.getD (""))) (pyLower (c.description.getD ("")))) = true
      · rw [if_pos hd]; constructor <;> norm_num
      · rw [if_neg hd]; constructor <;> norm_num
    · dsimp only
      rcases careerLoop_values h with h2 | h2 <;> rw [h2] <;> constructor <;> norm_num
  · rw [if_neg h1]; constructor <;> norm_num

/-- The filter multiplier always lies in [0,1]. -/
theorem filterScore_bounds (c : Course) (r : RecommendationRequest) :
    0 ≤ filterScore c r ∧ filterScore c r ≤ 1 := by
  unfold filterScore
  split_ifs <;> norm_num

/-- C8: calling `get_recommendations` against an empty catalog returns a
well-formed response with `total_matches = 0`, no recommendations, and a
non-empty suggestions list, rather than failing. -/
theorem C8_empty_catalog (content : Nat → ℚ) (r : RecommendationRequest) (limit : Nat) :
    getRecommendations content [] r limit =
      { recommendations := []
        total_matches := 0
        search_metadata := .error ("No courses available")
        suggestions := [("Please ensure courses are loaded in the database")] } ∧
    (getRecommendations content [] r limit).recommendations = [] ∧
    (getRecommendations content [] r limit).total_matches = 0 ∧
    (getRecommendations content [] r limit).suggestions ≠ [] := by
  refine ⟨rfl, rfl, rfl, ?_⟩
  simp [getRecommendations]

/-- C2, counterexample: the goal text "data" occurs in the title of one
of the career outcomes of the course, yet the career score is 0.8, not
1.0 — a description hit on an earlier outcome wins. -/
theorem C2_counterexample :
    (∃ o ∈ courseC2.career_outcomes, titleHit (pyLower ("data")) o = true) ∧
    careerScore courseC2 requestC2 = 4/5 ∧
    careerScore courseC2 requestC2 ≠ 1 := by
  have h : careerScore courseC2 requestC2 = 4/5 := rfl
  refine ⟨by decide, h, ?_⟩
  rw [h]; norm_num

/-- C3, counterexample: a request with every optional filter field left
absent (so that the schema defaults apply) still penalizes a
German-taught course with multiplier 0.1, because the absent language
field defaults to "English". -/
theorem C3_counterexample :
    defaultRequest.location = none ∧ defaultRequest.modality = none ∧
    defaultRequest.max_tuition = none ∧ defaultRequest.max_duration_months = none ∧
    defaultRequest.course_level = none ∧
    filterScore courseC3 defaultRequest = 1/10 ∧
    filterScore courseC3 defaultRequest ≠ 1 := by
  have h : filterScore courseC3 defaultRequest = 1/10 := rfl
  refine ⟨rfl, rfl, rfl, rfl, rfl, h, ?_⟩
  rw [h]; norm_num

/-- C3, amended: with every optional field absent, the filter multiplier
is 1.0 exactly when the program is taught in English (the absent language
field defaults to "English" and penalizes other languages with 0.1); the
remaining filter fields, when absent — here, explicitly `None` — impose
no penalty on any program. -/
theorem C3_absent_filter_fields (c : Course) :
    (filterScore c defaultRequest =
      if pyLower c.language_of_instruction = ("english") then 1 else 1/10) ∧
    (∀ r : RecommendationRequest, r.modality = none → r.language_of_instruction = none →
      r.max_tuition = none → r.max_duration_months = none → r.course_level = none →
      filterScore c r = 1) := by
  constructor
  · have hlangEq : pyLower ("English") = ("english") := rfl
    by_cases h : pyLower c.language_of_instruction = ("english") <;>
      simp +decide [filterScore, modalityViolated, languageViolated, tuitionViolated,
        durationViolated, levelViolated, defaultRequest, strTruthy, ratTruthy, natTruthy,
        hlangEq, h]
  · intro r h1 h2 h3 h4 h5
    simp [filterScore, modalityViolated, languageViolated, tuitionViolated,
      durationViolated, levelViolated, strTruthy, ratTruthy, natTruthy, h1, h2, h3, h4, h5]

/-- C3, witness: a request whose optional fields are all explicit `None`
(the language default overridden) gives multiplier 1.0 even to the
German-taught course. -/
theorem C3_witness : filterScore courseC3 allNoneRequest = 1 :=
  (C3_absent_filter_fields courseC3).2 allNoneRequest rfl rfl rfl rfl rfl

/-- C4: the filter multiplier is decided by the first violated rule in
the fixed order modality (0.0), language (0.1), tuition (0.2), duration
(0.3), course level (0.5), and is 1.0 when no rule fires; a modality
mismatch zeroes the multiplier and hence the total score, regardless of
every other sub-score, weight and filter field. -/
theorem C4_filter_precedence (c : Course) (r : RecommendationRequest)
    (content : ℚ) (i : Nat) :
    (modalityViolated c r = true →
      filterScore c r = 0 ∧ (calculateCourseScore content c r i).total_score = 0) ∧
    (modalityViolated c r = false → languageViolated c r = true →
      filterScore c r = 1/10) ∧
    (modalityViolated c r = false → languageViolated c r = false →
      tuitionViolated c r = true → filterScore c r = 1/5) ∧
    (modalityViolated c r = false → languageViolated c r = false →
      tuitionViolated c r = false → durationViolated c r = true →
      filterScore c r = 3/10) ∧
    (modalityViolated c r = false → languageViolated c r = false →
      tuitionViolated c r = false → durationViolated c r = false →
      levelViolated c r = true → filterScore c r = 1/2) ∧
    (modalityViolated c r = false → languageViolated c r = false →
      tuitionViolated c r = false → durationViolated c r = false →
      levelViolated c r = false → filterScore c r = 1) := by
  refine ⟨?_, ?_, ?_, ?_, ?_, ?_⟩ <;> intros <;>
    simp_all [filterScore, calculateCourseScore]

/-- C4, witness: an "online" preference against the in-person course
zeroes both the multiplier and the total score. -/
theorem C4_witness :
    filterScore baseCourse requestC4 = 0 ∧
    (calculateCourseScore (9/10) baseCourse requestC4 0).total_score = 0 :=
  (C4_filter_precedence baseCourse requestC4 (9/10) 0).1 (by decide)

/-- C5: the location score is 1.0 with no location preference; else 1.0
for an online program; else 1.0 on a case-insensitive substring hit in
the city; else 0.7 on a hit in the country; else 0.1 — and the
Berlin example from the spec evaluates accordingly. -/
theorem C5_location_score (c : Course) (r : RecommendationRequest) :
    (strTruthy r.location = false → locationScore c r = 1) ∧
    (strTruthy r.location = true →
      ((c.modality != "") && (pyLower c.modality == ("online"))) = true →
      locationScore c r = 1) ∧
    (strTruthy r.location = true →
      ((c.modality != "") && (pyLower c.modality == ("online"))) = false →
      (strTruthy c.location_city &&
        pyIn (pyLower (r.location.getD (""))) (pyLower (c.location_city.getD ("")))) = true →
      locationScore c r = 1) ∧
    (strTruthy r.location = true →
      ((c.modality != "") && (pyLower c.modality == ("online"))) = false →
      (strTruthy c.location_city &&
        pyIn (pyLower (r.location.getD (""))) (pyLower (c.location_city.getD ("")))) = false →
      (strTruthy c.location_country &&
        pyIn (pyLower (r.location.getD (""))) (pyLower (c.location_country.getD ("")))) = true →
      locationScore c r = 7/10) ∧
    (strTruthy r.location = true →
      ((c.modality != "") && (pyLower c.modality == ("online"))) = false →
      (strTruthy c.location_city &&
        pyIn (pyLower (r.location.getD (""))) (pyLower (c.location_city.getD ("")))) = false →
      (strTruthy c.location_country &&
        pyIn (pyLower (r.location.getD (""))) (pyLower (c.location_country.getD ("")))) = false →
      locationScore c r = 1/10) ∧
    locationScore berlinCourse reqBerlin = 1 ∧
    locationScore berlinCourse reqGermany = 7/10 ∧
    locationScore berlinCourse reqParis = 1/10 := by
  refine ⟨?_, ?_, ?_, ?_, ?_, rfl, rfl, rfl⟩
  · intro h1
    unfold locationScore
    rw [h1, if_neg Bool.false_ne_true]
  · intro h1 h2
    unfold locationScore
    rw [h1, h2]; simp
  · intro h1 h2 h3
    unfold locationScore
    rw [h1, h2, h3]; simp
  · intro h1 h2 h3 h4
    unfold locationScore
    rw [h1, h2, h3, h4]; simp
  · intro h1 h2 h3 h4
    unfold locationScore
    rw [h1, h2, h3, h4]; simp

/-- C5, witness: a request with no location preference scores 1.0. -/
theorem C5_witness : locationScore baseCourse allNoneRequest = 1 :=
  (C5_location_score baseCourse allNoneRequest).1 rfl

/-- C10: a zero tuition budget — accepted by the schema, which only
requires `max_tuition ≥ 0` — is falsy in Python, so the tuition rule is
skipped exactly as if no budget were given, and the 0.2 penalty can
never fire; likewise for a program whose tuition fee is 0.0. -/
theorem C10_zero_tuition_skips_rule (c : Course) (r : RecommendationRequest) :
    (RecommendationRequest.valid { defaultRequest with max_tuition := some 0 }) ∧
    (r.max_tuition = some 0 →
      filterScore c r = filterScore c { r with max_tuition := none } ∧
      filterScore c r ≠ 1/5) ∧
    (c.tuition_fee = some 0 →
      filterScore c r = filterScore { c with tuition_fee := none } r ∧
      filterScore c r ≠ 1/5) := by
  refine ⟨?_, ?_, ?_⟩
  · refine ⟨by simp, by simp [defaultRequest], ?_, ?_, ?_, ?_, ?_, ?_, ?_, ?_⟩ <;>
      norm_num [defaultRequest]
  · intro h
    have htv : tuitionViolated c r = false := by simp [tuitionViolated, h, ratTruthy]
    have htv2 : tuitionViolated c { r with max_tuition := none } = false := by
      simp [tuitionViolated, ratTruthy]
    have hm : modalityViolated c { r with max_tuition := none } = modalityViolated c r := rfl
    have hlg : languageViolated c { r with max_tuition := none } = languageViolated c r := rfl
    have hd : durationViolated c { r with max_tuition := none } = durationViolated c r := rfl
    have hlv : levelViolated c { r with max_tuition := none } = levelViolated c r := rfl
    refine ⟨?_, ?_⟩
    · unfold filterScore
      rw [htv, htv2, hm, hlg, hd, hlv]
    · unfold filterScore
      rw [htv, if_neg Bool.false_ne_true]
      split_ifs <;> norm_num
  · intro h
    have htv : tuitionViolated c r = false := by simp [tuitionViolated, h, ratTruthy]
    have htv2 : tuitionViolated { c with tuition_fee := none } r = false := by
      simp [tuitionViolated, ratTruthy]
    have hm : modalityViolated { c with tuition_fee := none } r = modalityViolated c r := rfl
    have hlg : languageViolated { c with tuition_fee := none } r = languageViolated c r := rfl
    have hd : durationViolated { c with tuition_fee := none } r = durationViolated c r := rfl
    have hlv : levelViolated { c with tuition_fee := none } r = levelViolated c r := rfl
    refine ⟨?_, ?_⟩
    · unfold filterScore
      rw [htv, htv2, hm, hlg, hd, hlv]
    · unfold filterScore
      rw [htv, if_neg Bool.false_ne_true]
      split_ifs <;> norm_num

/-- C10, witness: with a zero budget against a 999999-tuition course, the
rule is skipped and no 0.2 penalty arises. -/
theorem C10_witness :
    filterScore courseC10 requestC10 =
      filterScore courseC10 { requestC10 with max_tuition := none } ∧
    filterScore courseC10 requestC10 ≠ 1/5 :=
  (C10_zero_tuition_skips_rule courseC10 requestC10).2.1 rfl

/-- The outcome loop returns 1.0 exactly when the title of some outcome
contains the goal and no strictly earlier description does. -/
theorem careerLoop_eq_one_iff (g : String) :
    ∀ os : List CareerOutcome,
      careerLoop g os = some 1 ↔
        ∃ pre o post, os = pre ++ o :: post ∧ titleHit g o = true ∧
          ∀ p ∈ pre, descHit g p = false := by
  intro os
  induction os with
  | nil => simp [careerLoop]
  | cons o rest ih =>
    by_cases ht : titleHit g o = true
    · constructor
      · intro _
        exact ⟨[], o, rest, rfl, ht, by simp⟩
      · intro _
        unfold careerLoop
        rw [if_pos ht]
    · by_cases hd : descHit g o = true
      · constructor
        · intro h
          exfalso
          unfold careerLoop at h
          rw [if_neg ht, if_pos hd] at h
          have h2 := Option.some_injective ℚ h
          norm_num at h2
        · rintro ⟨pre, o2, post, heq, hth, hpre⟩
          exfalso
          cases pre with
          | nil =>
            rw [List.nil_append] at heq
            obtain ⟨h1, -⟩ := List.cons.injEq .. ▸ heq
            exact ht (h1 ▸ hth)
          | cons p pre2 =>
            rw [List.cons_append] at heq
            obtain ⟨h1, -⟩ := List.cons.injEq .. ▸ heq
            have hp := hpre p (List.mem_cons_self p pre2)
            rw [← h1] at hp
            rw [hp] at hd
            exact Bool.false_ne_true hd
      · have hstep : careerLoop g (o :: rest) = careerLoop g rest := by
          rw [careerLoop, if_neg ht, if_neg hd]
        rw [hstep, ih]
        constructor
        · rintro ⟨pre, o2, post, heq, hth, hpre⟩
          refine ⟨o :: pre, o2, post, by rw [List.cons_append, heq], hth, ?_⟩
          intro p hp
          rcases List.mem_cons.mp hp with h1 | h1
          · rw [h1]
            exact Bool.eq_false_iff.mpr hd
          · exact hpre p h1
        · rintro ⟨pre, o2, post, heq, hth, hpre⟩
          cases pre with
          | nil =>
            rw [List.nil_append] at heq
            obtain ⟨h1, -⟩ := List.cons.injEq .. ▸ heq
            exact absurd (h1 ▸ hth) ht
          | cons p pre2 =>
            rw [List.cons_append] at heq
            obtain ⟨-, h2⟩ := List.cons.injEq .. ▸ heq
            exact ⟨pre2, o2, post, h2, hth,
              fun q hq => hpre q (List.mem_cons_of_mem p hq)⟩

/-- C2, amended: outcomes are scanned in catalog order and the first
matching rule wins; with a truthy career goal the score is 1.0 exactly
when the title of some outcome contains the goal text
(case-insensitively) and no earlier description contains it — a preceding
description hit yields 0.8 even when a later title matches. -/
theorem C2_career_score_one_iff (c : Course) (r : RecommendationRequest) (g : String)
    (hg : r.career_goals = some g) (hne : g ≠ ("")) :
    careerScore c r = 1 ↔
      ∃ pre o post, c.career_outcomes = pre ++ o :: post ∧
        titleHit (pyLower g) o = true ∧ ∀ p ∈ pre, descHit (pyLower g) p = false := by
  have htr : strTruthy r.career_goals = true := by
    rw [hg]
    simp [strTruthy]
    exact hne
  unfold careerScore
  rw [if_pos htr, hg]
  simp only [Option.getD_some]
  rcases hcl : careerLoop (pyLower g) c.career_outcomes with _ | v
  · dsimp only
    constructor
    · intro h
      exfalso
      revert h
      split_ifs <;> norm_num
    · intro hR
      exfalso
      have h1 := (careerLoop_eq_one_iff (pyLower g) c.career_outcomes).mpr hR
      rw [hcl] at h1
      simp at h1
  · dsimp only
    rcases careerLoop_values hcl with hv | hv
    · subst hv
      constructor
      · intro _
        exact (careerLoop_eq_one_iff (pyLower g) c.career_outcomes).mp hcl
      · intro _
        rfl
    · subst hv
      constructor
      · intro h
        exfalso
        norm_num at h
      · intro hR
        exfalso
        have h1 := (careerLoop_eq_one_iff (pyLower g) c.career_outcomes).mpr hR
        rw [hcl] at h1
        have h2 := Option.some_injective ℚ h1
        norm_num at h2

/-- C2, witness: for a course whose only outcome title contains "data",
the amended characterization applies with goal "data". -/
theorem C2_witness :
    careerScore courseC2w requestC2 = 1 ↔
      ∃ pre o post, courseC2w.career_outcomes = pre ++ o :: post ∧
        titleHit (pyLower ("data")) o = true ∧
        ∀ p ∈ pre, descHit (pyLower ("data")) p = false :=
  C2_career_score_one_iff courseC2w requestC2 ("data") rfl (by decide)

/-- Reading past the end of a nonnegative vector yields the nonnegative
default 0. -/
theorem getD_nonneg : ∀ (u : List ℚ), (∀ a ∈ u, 0 ≤ a) → ∀ i : Nat, 0 ≤ u.getD i 0
  | [], _, _ => le_refl 0
  | a :: t, h, 0 => h a (List.mem_cons_self a t)
  | a :: t, h, i + 1 => getD_nonneg t (fun x hx => h x (List.mem_cons_of_mem a hx)) i

/-- A dot product of entrywise-nonnegative vectors is nonnegative. -/
theorem dotProd_nonneg (u v : List ℚ) (hu : ∀ a ∈ u, 0 ≤ a) (hv : ∀ a ∈ v, 0 ≤ a) :
    0 ≤ dotProd u v :=
  Finset.sum_nonneg fun i _ => mul_nonneg (getD_nonneg u hu i) (getD_nonneg v hv i)

/-- The dot product of a vector with itself is nonnegative. -/
theorem dotProd_self_nonneg (u : List ℚ) : 0 ≤ dotProd u u :=
  Finset.sum_nonneg fun _ _ => mul_self_nonneg _

/-- Cauchy–Schwarz for the list dot product. -/
theorem dotProd_sq_le (u v : List ℚ) : dotProd u v ^ 2 ≤ dotProd u u * dotProd v v := by
  unfold dotProd
  refine (Finset.sum_mul_sq_le_sq_mul_sq (Finset.range (min u.length v.length))
    (fun i => u.getD i 0) (fun i => v.getD i 0)).trans (mul_le_mul ?_ ?_ ?_ ?_)
  · rw [min_self]
    calc ∑ i ∈ Finset.range (min u.length v.length), u.getD i 0 ^ 2
        = ∑ i ∈ Finset.range (min u.length v.length), u.getD i 0 * u.getD i 0 :=
          Finset.sum_congr rfl fun i _ => pow_two _
      _ ≤ ∑ i ∈ Finset.range u.length, u.getD i 0 * u.getD i 0 :=
          Finset.sum_le_sum_of_subset_of_nonneg
            (Finset.range_subset.mpr (min_le_left _ _))
            (fun i _ _ => mul_self_nonneg _)
  · rw [min_self]
    calc ∑ i ∈ Finset.range (min u.length v.length), v.getD i 0 ^ 2
        = ∑ i ∈ Finset.range (min u.length v.length), v.getD i 0 * v.getD i 0 :=
          Finset.sum_congr rfl fun i _ => pow_two _
      _ ≤ ∑ i ∈ Finset.range v.length, v.getD i 0 * v.getD i 0 :=
          Finset.sum_le_sum_of_subset_of_nonneg
            (Finset.range_subset.mpr (min_le_right _ _))
            (fun i _ _ => mul_self_nonneg _)
  · exact Finset.sum_nonneg fun i _ => sq_nonneg _
  · rw [min_self]
    exact Finset.sum_nonneg fun i _ => mul_self_nonneg _

/-- Cosine similarity of entrywise-nonnegative vectors is nonnegative. -/
theorem cosineSim_nonneg (u v : List ℚ) (hu : ∀ a ∈ u, 0 ≤ a) (hv : ∀ a ∈ v, 0 ≤ a) :
    0 ≤ cosineSim u v := by
  unfold cosineSim
  split_ifs with h
  · exact le_refl 0
  · refine div_nonneg ?_ (mul_nonneg (Real.sqrt_nonneg _) (Real.sqrt_nonneg _))
    exact_mod_cast dotProd_nonneg u v hu hv

/-- Cosine similarity of entrywise-nonnegative vectors is at most 1. -/
theorem cosineSim_le_one (u v : List ℚ) (hu : ∀ a ∈ u, 0 ≤ a) (hv : ∀ a ∈ v, 0 ≤ a) :
    cosineSim u v ≤ 1 := by
  unfold cosineSim
  split_ifs with h
  · exact zero_le_one
  · push_neg at h
    obtain ⟨hu0, hv0⟩ := h
    have hupos : (0:ℚ) < dotProd u u := lt_of_le_of_ne (dotProd_self_nonneg u) (Ne.symm hu0)
    have hvpos : (0:ℚ) < dotProd v v := lt_of_le_of_ne (dotProd_self_nonneg v) (Ne.symm hv0)
    have hupos2 : (0:ℝ) < ((dotProd u u : ℚ) : ℝ) := by exact_mod_cast hupos
    have hvpos2 : (0:ℝ) < ((dotProd v v : ℚ) : ℝ) := by exact_mod_cast hvpos
    rw [div_le_one (mul_pos (Real.sqrt_pos.mpr hupos2) (Real.sqrt_pos.mpr hvpos2))]
    have hd : (0:ℝ) ≤ ((dotProd u v : ℚ) : ℝ) := by
      exact_mod_cast dotProd_nonneg u v hu hv
    have hcs : ((dotProd u v : ℚ) : ℝ) ^ 2 ≤
        ((dotProd u u : ℚ) : ℝ) * ((dotProd v v : ℚ) : ℝ) := by
      exact_mod_cast dotProd_sq_le u v
    calc ((dotProd u v : ℚ) : ℝ)
        = Real.sqrt (((dotProd u v : ℚ) : ℝ) ^ 2) := (Real.sqrt_sq hd).symm
      _ ≤ Real.sqrt (((dotProd u u : ℚ) : ℝ) * ((dotProd v v : ℚ) : ℝ)) :=
          Real.sqrt_le_sqrt hcs
      _ = Real.sqrt ((dotProd u u : ℚ) : ℝ) * Real.sqrt ((dotProd v v : ℚ) : ℝ) :=
          Real.sqrt_mul hupos2.le _

/-- C7: each of the four sub-scores lies in [0,1] (the content score
being the cosine similarity of nonnegative TF-IDF vectors), and the
weighted total before the filter multiplier lies between 0 and the sum
of the four weights. -/
theorem C7_subscore_and_total_bounds (c : Course) (r : RecommendationRequest)
    (x : ℚ) (i : Nat) (qv row : List ℚ)
    (hqv : ∀ a ∈ qv, 0 ≤ a) (hrow : ∀ a ∈ row, 0 ≤ a)
    (hx0 : 0 ≤ x) (hx1 : x ≤ 1) (hr : r.valid) :
    (0 ≤ cosineSim qv row ∧ cosineSim qv row ≤ 1) ∧
    (0 ≤ locationScore c r ∧ locationScore c r ≤ 1) ∧
    (0 ≤ careerScore c r ∧ careerScore c r ≤ 1) ∧
    (0 ≤ filterScore c r ∧ filterScore c r ≤ 1) ∧
    (calculateCourseScore x c r i).total_score = preFilterTotal x c r * filterScore c r ∧
    0 ≤ preFilterTotal x c r ∧
    preFilterTotal x c r ≤
      r.skill_weight + r.interest_weight + r.location_weight + r.career_weight := by
  obtain ⟨-, -, hsw0, hsw1, hiw0, hiw1, hlw0, hlw1, hcw0, hcw1⟩ := hr
  refine ⟨⟨cosineSim_nonneg qv row hqv hrow, cosineSim_le_one qv row hqv hrow⟩,
    locationScore_bounds c r, careerScore_bounds c r, filterScore_bounds c r, rfl, ?_, ?_⟩
  · unfold preFilterTotal
    exact add_nonneg
      (add_nonneg (mul_nonneg hx0 (add_nonneg hsw0 hiw0))
        (mul_nonneg (locationScore_bounds c r).1 hlw0))
      (mul_nonneg (careerScore_bounds c r).1 hcw0)
  · unfold preFilterTotal
    have e1 : x * (r.skill_weight + r.interest_weight) ≤
        r.skill_weight + r.interest_weight :=
      mul_le_of_le_one_left (add_nonneg hsw0 hiw0) hx1
    have e2 : locationScore c r * r.location_weight ≤ r.location_weight :=
      mul_le_of_le_one_left hlw0 (locationScore_bounds c r).2
    have e3 : careerScore c r * r.career_weight ≤ r.career_weight :=
      mul_le_of_le_one_left hcw0 (careerScore_bounds c r).2
    linarith

/-- C7, witness: the bounds hold concretely at content score 1/2, the
base course and the default request. -/
theorem C7_witness :
    0 ≤ cosineSim [1] [1] ∧ cosineSim [1] [1] ≤ 1 ∧
    0 ≤ preFilterTotal (1/2) baseCourse defaultRequest ∧
    preFilterTotal (1/2) baseCourse defaultRequest ≤
      defaultRequest.skill_weight + defaultRequest.interest_weight +
      defaultRequest.location_weight + defaultRequest.career_weight := by
  have h := C7_subscore_and_total_bounds baseCourse defaultRequest (1/2) 0 [1] [1]
    (by norm_num) (by norm_num) (by norm_num) (by norm_num)
    (by refine ⟨by simp [defaultRequest], by simp [defaultRequest],
      ?_, ?_, ?_, ?_, ?_, ?_, ?_, ?_⟩ <;> norm_num [defaultRequest])
  exact ⟨h.1.1, h.1.2, h.2.2.2.2.2.1, h.2.2.2.2.2.2⟩

/-- C9: the content-similarity computation returns 0 when the query text
is empty, when the index was never built, or when the per-program
computation fails (the caught-error case); with nonnegative TF-IDF
vectors its value always lies in [0,1], and it is a total function — no
exception propagates to abort the ranking of other programs. -/
theorem C9_content_similarity_safe (qv : List ℚ) (m : Option (List (List ℚ)))
    (uq : String) (i : Nat) :
    (uq = ("") → contentSimilarity qv m uq i = 0) ∧
    (m = none → contentSimilarity qv m uq i = 0) ∧
    ((m.getD [])[i]? = none → contentSimilarity qv m uq i = 0) ∧
    ((∀ a ∈ qv, 0 ≤ a) → (∀ row ∈ m.getD [], ∀ a ∈ row, 0 ≤ a) →
      0 ≤ contentSimilarity qv m uq i ∧ contentSimilarity qv m uq i ≤ 1) := by
  refine ⟨?_, ?_, ?_, ?_⟩
  · intro h
    unfold contentSimilarity
    rw [if_pos (Or.inl h)]
  · intro h
    unfold contentSimilarity
    rw [if_pos (Or.inr h)]
  · intro h
    unfold contentSimilarity
    split_ifs with hc
    · rfl
    · rw [h]
  · intro hq hrows
    unfold contentSimilarity
    split_ifs with hc
    · exact ⟨le_refl 0, zero_le_one⟩
    · rcases hrow : (m.getD [])[i]? with _ | row
      · dsimp only
        exact ⟨le_refl 0, zero_le_one⟩
      · dsimp only
        have hmem : row ∈ m.getD [] := List.getElem?_mem hrow
        exact ⟨cosineSim_nonneg qv row hq (hrows row hmem),
          cosineSim_le_one qv row hq (hrows row hmem)⟩

/-- C9, witness: concrete evaluations — empty query gives 0, and a
one-term query against a one-row index stays within [0,1]. -/
theorem C9_witness :
    contentSimilarity [1] (some [[1]]) ("") 0 = 0 ∧
    0 ≤ contentSimilarity [1] (some [[1]]) ("x") 0 ∧
    contentSimilarity [1] (some [[1]]) ("x") 0 ≤ 1 := by
  have h1 := (C9_content_similarity_safe [1] (some [[1]]) ("") 0).1 rfl
  have h2 := (C9_content_similarity_safe [1] (some [[1]]) ("x") 0).2.2.2
    (by norm_num) (by norm_num)
  exact ⟨h1, h2.1, h2.2⟩

/-- The sort comparison is transitive. -/
theorem scoreLE_trans : ∀ a b c : ScoreData, scoreLE a b → scoreLE b c → scoreLE a c := by
  intro a b c hab hbc
  simp only [scoreLE, decide_eq_true_eq] at hab hbc ⊢
  exact le_trans hbc hab

/-- The sort comparison is total. -/
theorem scoreLE_total : ∀ a b : ScoreData, scoreLE a b || scoreLE b a := by
  intro a b
  simp only [scoreLE, Bool.or_eq_true, decide_eq_true_eq]
  exact le_total _ _

/-- Every candidate scored from start index `i` carries index ≥ `i`. -/
theorem scoreCourses_le_idx (content : Nat → ℚ) (r : RecommendationRequest) :
    ∀ (cs : List Course) (i : Nat), ∀ s ∈ scoreCourses content r i cs, i ≤ s.idx := by
  intro cs
  induction cs with
  | nil =>
    intro i s hs
    simp [scoreCourses] at hs
  | cons c t ih =>
    intro i s hs
    rw [scoreCourses] at hs
    rcases List.mem_cons.mp hs with h1 | h1
    · rw [h1]
      exact Nat.le_refl _
    · exact Nat.le_of_succ_le (ih (i + 1) s h1)

/-- Candidates are scored in catalog order: indices strictly increase. -/
theorem scoreCourses_idx_pairwise (content : Nat → ℚ) (r : RecommendationRequest) :
    ∀ (cs : List Course) (i : Nat),
      (scoreCourses content r i cs).Pairwise (fun a b => a.idx < b.idx) := by
  intro cs
  induction cs with
  | nil =>
    intro i
    simp [scoreCourses]
  | cons c t ih =>
    intro i
    rw [scoreCourses]
    exact List.Pairwise.cons
      (fun s hs => Nat.lt_of_succ_le (scoreCourses_le_idx content r t (i + 1) s hs))
      (ih (i + 1))

/-- C6: against a non-empty catalog, the returned list is exactly the
stable descending sort of the above-threshold candidates truncated to
`limit`; `total_matches` counts all above-threshold candidates before
truncation; scores are descending along the returned list; catalog-order
pairs with non-increasing scores (ties included) keep their order; and
the default limit is 20. -/
theorem C6_ranking (content : Nat → ℚ) (courses : List Course)
    (r : RecommendationRequest) (limit : Nat) (h : courses ≠ []) :
    (getRecommendations content courses r limit).recommendations =
      ((rankedScores content r courses).take limit).map createCourseMatch ∧
    (getRecommendations content courses r limit).total_matches =
      (keptScores content r courses).length ∧
    keptScores content r courses =
      (scoreCourses content r 0 courses).filter (fun s => decide (1/10 < s.total_score)) ∧
    List.Perm (rankedScores content r courses) (keptScores content r courses) ∧
    (rankedScores content r courses).Pairwise
      (fun a b => b.total_score ≤ a.total_score) ∧
    (∀ a b, List.Sublist [a, b] (keptScores content r courses) →
      b.total_score ≤ a.total_score →
      List.Sublist [a, b] (rankedScores content r courses)) ∧
    (keptScores content r courses).Pairwise (fun a b => a.idx < b.idx) ∧
    (∀ i j : Fin (getRecommendations content courses r limit).recommendations.length,
      i < j →
      ((getRecommendations content courses r limit).recommendations.get j).match_score ≤
      ((getRecommendations content courses r limit).recommendations.get i).match_score) ∧
    defaultLimit = 20 := by
  have hne : courses.isEmpty = false := by
    cases courses with
    | nil => exact absurd rfl h
    | cons a t => rfl
  have hG : getRecommendations content courses r limit =
      { recommendations :=
          ((rankedScores content r courses).take limit).map createCourseMatch
        total_matches := (keptScores content r courses).length
        search_metadata :=
          generateSearchMetadata courses.length r (keptScores content r courses)
        suggestions := generateSuggestions r (keptScores content r courses) } := by
    unfold getRecommendations
    rw [hne, if_neg Bool.false_ne_true]
  have hsorted : (rankedScores content r courses).Pairwise
      (fun a b => b.total_score ≤ a.total_score) :=
    (List.sorted_mergeSort scoreLE_trans scoreLE_total
      (keptScores content r courses)).imp
      (fun hab => by simpa [scoreLE, decide_eq_true_eq] using hab)
  refine ⟨by rw [hG], by rw [hG], rfl, List.mergeSort_perm _ _, hsorted, ?_, ?_, ?_, rfl⟩
  · intro a b hsub hle
    exact List.pair_sublist_mergeSort scoreLE_trans scoreLE_total
      (by simpa [scoreLE, decide_eq_true_eq] using hle) hsub
  · exact (scoreCourses_idx_pairwise content r courses 0).filter _
  · have htake : (((rankedScores content r courses).take limit).map
        createCourseMatch).Pairwise (fun a b => b.match_score ≤ a.match_score) := by
      rw [List.pairwise_map]
      exact List.Pairwise.sublist (List.take_sublist limit _) hsorted
    have hres : (getRecommendations content courses r limit).recommendations.Pairwise
        (fun a b => b.match_score ≤ a.match_score) := by
      rw [hG]
      exact htake
    intro i j hij
    exact List.pairwise_iff_get.mp hres i j hij

/-- C6, witness: the pipeline shape holds concretely for the one-course
catalog at the default limit. -/
theorem C6_witness :
    (getRecommendations (fun _ => 0) [baseCourse] defaultRequest defaultLimit).recommendations =
      ((rankedScores (fun _ => 0) defaultRequest [baseCourse]).take defaultLimit).map
        createCourseMatch :=
  (C6_ranking (fun _ => 0) [baseCourse] defaultRequest defaultLimit (by simp)).1

/-- C1: the engine is NOT exception-free for every valid query.  A valid
request (all weights in [0,1]) whose weights sum to 2 — full weight on
location and career, no location preference, no career goal, no filters,
empty user query (hence content score exactly 0) — produces a
`match_score` of 2 for the base course.  This violates the
`CourseMatch` schema bound `match_score ≤ 1`, so pydantic raises a
`ValidationError` inside `get_recommendations` instead of returning a
structured response. -/
theorem C1_match_score_exceeds_schema_bound :
    requestC1.valid ∧
    1 < requestC1.skill_weight + requestC1.interest_weight +
        requestC1.location_weight + requestC1.career_weight ∧
    buildUserQuery requestC1 = ("") ∧
    (∀ qv m i, contentSimilarity qv m (buildUserQuery requestC1) i = 0) ∧
    ((getRecommendations (fun _ => 0) [baseCourse] requestC1 defaultLimit).recommendations.map
      CourseMatch.match_score = [2]) ∧
    ¬ (∀ mt ∈ (getRecommendations (fun _ => 0) [baseCourse] requestC1
        defaultLimit).recommendations, mt.schemaValid) := by
  have hls : locationScore baseCourse requestC1 = 1 := rfl
  have hcs : careerScore baseCourse requestC1 = 1 := rfl
  have hfs : filterScore baseCourse requestC1 = 1 := rfl
  have hts : (calculateCourseScore 0 baseCourse requestC1 0).total_score = 2 := by
    show preFilterTotal 0 baseCourse requestC1 * filterScore baseCourse requestC1 = 2
    rw [hfs]
    unfold preFilterTotal
    rw [hls, hcs]
    norm_num [requestC1, defaultRequest]
  have hkept : keptScores (fun _ => 0) requestC1 [baseCourse] =
      [calculateCourseScore 0 baseCourse requestC1 0] := by
    simp only [keptScores, scoreCourses, List.filter_cons, List.filter_nil, hts,
      decide_eq_true_eq]
    norm_num
  have hranked : rankedScores (fun _ => 0) requestC1 [baseCourse] =
      [calculateCourseScore 0 baseCourse requestC1 0] := by
    unfold rankedScores
    rw [hkept, List.mergeSort_singleton]
  have hG : (getRecommendations (fun _ => 0) [baseCourse] requestC1
      defaultLimit).recommendations =
      [createCourseMatch (calculateCourseScore 0 baseCourse requestC1 0)] := by
    unfold getRecommendations
    rw [List.isEmpty_cons, if_neg Bool.false_ne_true]
    show (((rankedScores (fun _ => 0) requestC1 [baseCourse]).take defaultLimit).map
      createCourseMatch) = _
    rw [hranked]
    rfl
  have hms : (createCourseMatch
      (calculateCourseScore 0 baseCourse requestC1 0)).match_score = 2 := hts
  refine ⟨?_, ?_, rfl, ?_, ?_, ?_⟩
  · refine ⟨by simp [requestC1, defaultRequest], by simp [requestC1, defaultRequest],
      ?_, ?_, ?_, ?_, ?_, ?_, ?_, ?_⟩ <;> norm_num [requestC1, defaultRequest]
  · norm_num [requestC1, defaultRequest]
  · intro qv m i
    show contentSimilarity qv m ("") i = 0
    unfold contentSimilarity
    rw [if_pos (Or.inl rfl)]
  · rw [hG, List.map_cons, List.map_nil, hms]
  · intro hAll
    have hb := (hAll (createCourseMatch (calculateCourseScore 0 baseCourse requestC1 0))
      (by rw [hG]; exact List.mem_singleton_self _)).2.1
    rw [hms] at hb
    norm_num at hb

end CourseFindr
